import Mathlib

/-!
Shallow embedding of `packages/api/src/resolvers/subscriptions/index.ts`:
the feed subscription lifecycle and pagination engine.  Relational rows are
lists of records, timestamps are `Nat`, nullable columns are `Option`, and
the external collaborators (feed parser, OPML parser, HTML link extraction,
HTTP fetch, feed search) are passed in as function arguments, mirroring the
black-box contracts of §6 of the specification.
-/

namespace Omnimap

/-- The `SubscriptionType` GraphQL enum, as used by the resolvers. -/
inductive SubscriptionType
  | RSS
  | NEWSLETTER
deriving DecidableEq

/-- The `SubscriptionStatus` GraphQL enum: `ACTIVE` or `UNSUBSCRIBED`. -/
inductive SubscriptionStatus
  | ACTIVE
  | UNSUBSCRIBED
deriving DecidableEq

/-- A row of the `omnivore.subscriptions` table as read and written by the
resolvers in `resolvers/subscriptions/index.ts`.  Timestamps are modelled as
`Nat`, nullable columns as `Option`. -/
structure Subscription where
  id : Nat
  userId : Nat
  type : SubscriptionType
  url : String
  name : String
  description : Option String
  icon : Option String
  status : SubscriptionStatus
  createdAt : Nat
  lastFetchedAt : Option Nat
  lastFetchedChecksum : Option String
  scheduledAt : Option Nat
  autoAddToLibrary : Option Bool
  isPrivate : Option Bool
deriving DecidableEq

/-- Result of the external `parseFeed` black box (`utils/parser`): the parsed
feed document's own metadata `{title, url, description?, thumbnail?}`. -/
structure Feed where
  title : String
  url : String
  description : Option String
  thumbnail : Option String
deriving DecidableEq

/-- The `SubscribeErrorCode` GraphQL enum values used by `subscribeResolver`. -/
inductive SubscribeErrorCode
  | AlreadySubscribed
  | NotFound
  | ExceededMaxSubscriptions
  | BadRequest
deriving DecidableEq

/-- A subscribe mutation returns either a success payload carrying a list of
subscriptions or a list of error codes — never both (§6). -/
inductive SubscribeResult
  | success (subscriptions : List Subscription)
  | error (errorCodes : List SubscribeErrorCode)
deriving DecidableEq

/-- Payload of a call to `enqueueRssFeedFetch` (the external Fetch Scheduler
collaborator, §6): parallel arrays, one entry per subscription. -/
structure RssFeedFetchTask where
  userIds : List Nat
  url : String
  subscriptionIds : List Nat
  scheduledDates : List Nat
  fetchedDates : List (Option Nat)
  checksums : List (Option String)
  addToLibraryFlags : List Bool
deriving DecidableEq

/-- Fields of `MutationSubscribeArgs.input` read by `subscribeResolver`. -/
structure SubscribeInput where
  url : String
  autoAddToLibrary : Option Bool
  isPrivate : Option Bool
deriving DecidableEq

/-- Number of rows matching `user_id = uid and type = 'RSS' and status =
'ACTIVE'` — the count aggregated by the conditional-insert SQL statement in
`subscribeResolver`. -/
def activeRssCount (db : List Subscription) (uid : Nat) : Nat :=
  (db.filter fun s =>
    decide (s.userId = uid ∧ s.type = .RSS ∧ s.status = .ACTIVE)).length

/-- `getRepository(Subscription).findOneBy({url, user: {id: uid}, type: Rss})`
in `subscribeResolver`: the exact-match lookup used to detect resubscription. -/
def findOneBySub (db : List Subscription) (uid : Nat) (url : String) :
    Option Subscription :=
  db.find? fun s => decide (s.url = url ∧ s.userId = uid ∧ s.type = .RSS)

/-- `const MAX_RSS_SUBSCRIPTIONS = 150` in `subscribeResolver`. -/
def MAX_RSS_SUBSCRIPTIONS : Nat := 150

/-- The single conditional-insert statement of `subscribeResolver`:
`insert into omnivore.subscriptions (…) select $1,…,$8 from
omnivore.subscriptions where user_id = $5 and type = 'RSS' and status =
'ACTIVE' having count(*) < $9 returning *;`.  As one indivisible database
operation it inserts the candidate row iff the user's active-RSS count is
strictly below the quota, returning the inserted rows (empty when the quota
is met).  Modelled from the spec: the table schema is not under `src/`; per
§3 the feed `url` is unique per user+type, so a physical insert that would
duplicate an existing `(userId, url, type)` key raises a database error,
modelled as `Except.error`. -/
def insertWithQuota (db : List Subscription) (row : Subscription)
    (quota : Nat) : Except Unit (List Subscription × List Subscription) :=
  if activeRssCount db row.userId < quota then
    if (db.find? fun s =>
        decide (s.userId = row.userId ∧ s.url = row.url ∧ s.type = row.type)).isSome then
      .error ()
    else
      .ok (db ++ [row], [row])
  else
    .ok (db, [])

/-- JS `s || undefined` (or `s || null`) on an optional string: an absent or
empty string collapses to the undefined/null case. -/
def jsOrUndefined : Option String → Option String
  | some "" => none
  | x => x

/-- The candidate row bound to the insert parameters `$1…$8` in
`subscribeResolver`: name, url, description and icon come from the parsed
feed document — description and icon via `feed.description || null` and
`feed.thumbnail || null`, so an empty string is stored as NULL —
`autoAddToLibrary` and `isPrivate` from the caller's input.
Modelled from the spec: the server-generated columns (`id`, `createdAt`) and
the `ACTIVE` default of the `status` column (§3: new subscriptions are
created active) live in the table schema, which is not under `src/`. -/
def mkSubscriptionRow (newId now uid : Nat) (input : SubscribeInput)
    (feed : Feed) : Subscription :=
  { id := newId
    userId := uid
    type := .RSS
    url := feed.url
    name := feed.title
    description := jsOrUndefined feed.description
    icon := jsOrUndefined feed.thumbnail
    status := .ACTIVE
    createdAt := now
    lastFetchedAt := none
    lastFetchedChecksum := none
    scheduledAt := none
    autoAddToLibrary := input.autoAddToLibrary
    isPrivate := input.isPrivate }

/-- `getRepository(Subscription).save(entity)` for an entity that carries a
primary key: the row with that id is overwritten with the entity. -/
def saveRow (db : List Subscription) (row : Subscription) :
    List Subscription :=
  db.map fun s => if s.id = row.id then row else s

/-- `subscribeResolver`'s handling of the conditional insert's outcome: an
empty result set means the quota was already met and becomes
`ExceededMaxSubscriptions`; a raised database error is caught by the
resolver's `catch` block and reported as `BadRequest`; otherwise the returned
row `results[0]` is kept as the new subscription. -/
def insertOutcome (db : List Subscription) (row : Subscription) :
    List Subscription × SubscribeResult :=
  match insertWithQuota db row MAX_RSS_SUBSCRIPTIONS with
  | .error _ => (db, .error [.BadRequest])
  | .ok (_, []) => (db, .error [.ExceededMaxSubscriptions])
  | .ok (db', r :: _) => (db', .success [r])

/-- The database state, mutation result and emitted fetch-schedule requests
produced by one subscribe call. -/
structure SubscribeOutcome where
  db : List Subscription
  result : SubscribeResult
  tasks : List RssFeedFetchTask
deriving DecidableEq

/-- `subscribeResolver`: the subscribe mutation.  `parseFeedFn` stands for
the external `parseFeed` black box, `newId` and `now` for the server-generated
row id and the clock (`new Date()`). -/
def subscribeResolver (parseFeedFn : String → Option Feed) (newId now : Nat)
    (db : List Subscription) (uid : Nat) (input : SubscribeInput) :
    SubscribeOutcome :=
  match findOneBySub db uid input.url with
  | some existingSubscription =>
    if existingSubscription.status = .ACTIVE then
      { db := db, result := .error [.AlreadySubscribed], tasks := [] }
    else
      let updatedSubscription :=
        { existingSubscription with status := SubscriptionStatus.ACTIVE }
      { db := saveRow db updatedSubscription
        result := .success [updatedSubscription]
        tasks := [{ userIds := [uid]
                    url := input.url
                    subscriptionIds := [updatedSubscription.id]
                    scheduledDates := [now]
                    fetchedDates := [updatedSubscription.lastFetchedAt]
                    checksums := [updatedSubscription.lastFetchedChecksum]
                    addToLibraryFlags :=
                      [updatedSubscription.autoAddToLibrary.getD false] }] }
  | none =>
    match parseFeedFn input.url with
    | none => { db := db, result := .error [.NotFound], tasks := [] }
    | some feed =>
      let row := mkSubscriptionRow newId now uid input feed
      match insertOutcome db row with
      | (db', .success [newSubscription]) =>
        { db := db'
          result := .success [newSubscription]
          tasks := [{ userIds := [uid]
                      url := input.url
                      subscriptionIds := [newSubscription.id]
                      scheduledDates := [now]
                      fetchedDates := [none]
                      checksums := [none]
                      addToLibraryFlags :=
                        [newSubscription.autoAddToLibrary.getD false] }] }
      | (db', r) => { db := db', result := r, tasks := [] }

/-- Serialization of a set of concurrent subscribe calls for brand-new URLs
at the level of their single state-changing step.  Per §5, requests share no
in-process state and the conditional insert is the only operation that
creates rows and the only write a new-URL subscribe performs, evaluated by
the persistence engine as one indivisible operation; any interleaving of such
calls is therefore equivalent to some sequential order of their atomic
inserts, each followed by `subscribeResolver`'s translation of the insert
result (`insertOutcome`). -/
def runInserts (db : List Subscription) (rows : List Subscription) :
    List Subscription × List SubscribeResult :=
  match rows with
  | [] => (db, [])
  | row :: rest =>
    let step := insertOutcome db row
    let next := runInserts step.1 rest
    (next.1, step.2 :: next.2)

/-- True on the success variant of a subscribe result. -/
def isSubscribeSuccess : SubscribeResult → Bool
  | .success _ => true
  | .error _ => false

/-- How many of the given subscribe results are successes. -/
def numSuccesses (results : List SubscribeResult) : Nat :=
  (results.filter isSubscribeSuccess).length

/-- The generated `SortBy` GraphQL enum is not under `src/`; the resolver only
tests `sort?.by === SortBy.UpdatedTime`, so all of its remaining members are
collapsed into the single constructor `OtherValue`. -/
inductive SortBy
  | UpdatedTime
  | OtherValue
deriving DecidableEq

/-- The `SortOrder` GraphQL enum; the resolver only tests
`sort?.order === SortOrder.Ascending`. -/
inductive SortOrder
  | Ascending
  | Descending
deriving DecidableEq

/-- The optional `sort` argument of the subscriptions query; the source field
`by` is a Lean keyword and is spelled `by'` here. -/
structure SortParams where
  by' : Option SortBy
  order : Option SortOrder
deriving DecidableEq

/-- The two sort columns the resolver can request:
`sort?.by === SortBy.UpdatedTime ? 'lastFetchedAt' : 'createdAt'`. -/
inductive SortColumn
  | lastFetchedAt
  | createdAt
deriving DecidableEq

/-- `'ASC' | 'DESC'` as passed to the query builder. -/
inductive OrderDir
  | ASC
  | DESC
deriving DecidableEq

/-- The value of the requested sort column on a row.  `lastFetchedAt` is a
nullable column; `createdAt` is always present. -/
def sortColVal : SortColumn → Subscription → Option Nat
  | .lastFetchedAt, s => s.lastFetchedAt
  | .createdAt, s => some s.createdAt

/-- `status` ascending: `'ACTIVE'` sorts before `'UNSUBSCRIBED'`. -/
def statusKey : SubscriptionStatus → Nat
  | .ACTIVE => 0
  | .UNSUBSCRIBED => 1

/-- One ORDER BY key with `'NULLS LAST'`: SQL places NULL after every
non-NULL value in both directions; non-NULL values compare according to the
requested direction. -/
def nullsLastLE (dir : OrderDir) (x y : Option Nat) : Bool :=
  match x, y with
  | none, none => true
  | none, some _ => false
  | some _, none => true
  | some u, some v =>
    match dir with
    | .ASC => decide (u ≤ v)
    | .DESC => decide (v ≤ u)

/-- The two-key ORDER BY of `subscriptionsResolver`:
`.orderBy('subscription.status', 'ASC')
 .addOrderBy('subscription.' + sortBy, sortOrder, 'NULLS LAST')`,
as a total preorder: primary key `status` ascending, secondary key the
requested column with NULLS LAST. -/
def subscriptionLE (col : SortColumn) (dir : OrderDir)
    (a b : Subscription) : Bool :=
  if statusKey a.status = statusKey b.status then
    nullsLastLE dir (sortColVal col a) (sortColVal col b)
  else
    decide (statusKey a.status < statusKey b.status)

/-- The WHERE clause built by `subscriptionsResolver`: rows of the requesting
user, restricted to active newsletters when `type = NEWSLETTER`, to all RSS
rows when `type = RSS`, and to the OR of the two when no type is given. -/
def subscriptionFilter (uid : Nat) (type? : Option SubscriptionType)
    (s : Subscription) : Bool :=
  decide (s.userId = uid) &&
  match type? with
  | some .NEWSLETTER => decide (s.type = .NEWSLETTER ∧ s.status = .ACTIVE)
  | some .RSS => decide (s.type = .RSS)
  | none => decide ((s.type = .NEWSLETTER ∧ s.status = .ACTIVE) ∨ s.type = .RSS)

/-- `subscriptionsResolver`: list a user's subscriptions with type filtering
and the NULL-aware two-key ordering.  The relational store's ORDER BY is
modelled as sorting the matching rows by the total preorder
`subscriptionLE`. -/
def subscriptionsResolver (db : List Subscription) (uid : Nat)
    (sort : Option SortParams) (type? : Option SubscriptionType) :
    List Subscription :=
  let sortBy :=
    if sort.bind SortParams.by' = some SortBy.UpdatedTime then
      SortColumn.lastFetchedAt
    else SortColumn.createdAt
  let sortOrder :=
    if sort.bind SortParams.order = some SortOrder.Ascending then OrderDir.ASC
    else OrderDir.DESC
  (db.filter (subscriptionFilter uid type?)).insertionSort
    fun a b => subscriptionLE sortBy sortOrder a b = true

/-- Fields of `QueryFeedsArgs.input` read by `feedsResolver`. -/
structure FeedsInput where
  after : Option String
  first : Option Int
  query : Option String
deriving DecidableEq

/-- One edge of the paginated feeds result. -/
structure FeedEdge (α : Type) where
  node : α
  cursor : String
deriving DecidableEq

/-- The `FeedsSuccess` payload with its `pageInfo` fields flattened. -/
structure FeedsSuccess (α : Type) where
  edges : List (FeedEdge α)
  hasPreviousPage : Bool
  hasNextPage : Bool
  startCursor : String
  endCursor : String
  totalCount : Nat
deriving DecidableEq

/-- Decimal digit value of a character, if it is a digit. -/
def charDigit? (c : Char) : Option Nat :=
  if '0' ≤ c ∧ c ≤ '9' then some (c.toNat - '0'.toNat) else none

/-- Accumulate the decimal value of a digit string; `none` on a non-digit. -/
def decDigitsAux : List Char → Nat → Option Nat
  | [], acc => some acc
  | c :: cs, acc =>
    match charDigit? c with
    | some d => decDigitsAux cs (acc * 10 + d)
    | none => none

/-- JS `Number(s)` restricted to the decimal integer strings this engine
produces as cursors: optional leading minus sign followed by digits; any
other string is NaN (`none`), and the empty string is 0. -/
def jsNumber? (s : String) : Option Int :=
  match s.data with
  | '-' :: cs =>
    match cs with
    | [] => none
    | _ => (decDigitsAux cs 0).map fun n => -(n : Int)
  | cs => (decDigitsAux cs 0).map fun n => (n : Int)

/-- `start` in `feedsResolver`:
`startCursor && !isNaN(Number(startCursor)) ? Number(startCursor) : 0`. -/
def cursorToOffset (startCursor : String) : Int :=
  if startCursor ≠ "" ∧ (jsNumber? startCursor).isSome then
    (jsNumber? startCursor).getD 0
  else 0

/-- `first` in `feedsResolver`: `Math.min(input.first || 10, 100)` — JS `||`
treats an absent value and 0 alike, and `Math.min` caps at 100 without any
lower bound. -/
def effectiveFirst (first? : Option Int) : Int :=
  min
    (match first? with
     | some n => if n = 0 then 10 else n
     | none => 10)
    100

/-- Modelled from the spec: the external Feed Search collaborator (§6) behind
`feedRepository.searchFeeds`, of which the engine only requires that for a
query, limit and offset it returns the window of the catalog starting at the
offset, at most `limit` entries long, together with the total match count. -/
def searchCatalog {α : Type} (catalog : List α) (_query : String)
    (limit offset : Int) : List α × Nat :=
  ((catalog.drop offset.toNat).take limit.toNat, catalog.length)

/-- `feedsResolver`: offset-cursor pagination over the external search
collaborator, which is passed in as `searchFeeds (query) (limit) (offset)`. -/
def feedsResolver {α : Type}
    (searchFeeds : String → Int → Int → List α × Nat) (input : FeedsInput) :
    FeedsSuccess α :=
  let startCursor := input.after.getD ""
  let start := cursorToOffset startCursor
  let first := effectiveFirst input.first
  let searched := searchFeeds (input.query.getD "") (first + 1) start
  let feeds := searched.1
  let count := searched.2
  let hasNextPage := decide ((feeds.length : Int) > first)
  let endCursor :=
    toString (start + (feeds.length : Int) - (if hasNextPage then 1 else 0))
  let feeds := if hasNextPage then feeds.dropLast else feeds
  { edges := feeds.map fun feed => { node := feed, cursor := endCursor }
    hasPreviousPage := decide (start > 0)
    hasNextPage := hasNextPage
    startCursor := startCursor
    endCursor := endCursor
    totalCount := count }

/-- Fields of `QueryScanFeedsArgs.input`. -/
structure ScanFeedsInput where
  opml : Option String
  url : Option String
deriving DecidableEq

/-- Error codes for the scan-feeds query.  The generated enum is not under
`src/`; `scanFeedsResolver` itself only ever produces `BadRequest`, and
`NotFound` is included because the specification names it. -/
inductive ScanFeedsErrorCode
  | BadRequest
  | NotFound
deriving DecidableEq

/-- An outline entry returned by the external `parseOpml` black box. -/
structure OpmlOutline where
  url : String
  title : String
  type : Option String
deriving DecidableEq

/-- An RSS autodiscovery `<link>` element as seen through
`querySelectorAll('link[type="application/rss+xml"]')` plus `getAttribute`. -/
structure HtmlLink where
  href : Option String
  title : Option String
deriving DecidableEq

/-- The `axios.get` response: body text and optional content-type header. -/
structure FetchResponse where
  data : String
  contentType : Option String
deriving DecidableEq

/-- One entry of the `ScanFeedsSuccess.feeds` payload; the three branches of
the resolver fill different subsets of the optional fields, mirroring the
plain JS objects they build. -/
structure ScannedFeed where
  url : String
  title : String
  type : Option String := none
  description : Option String := none
  thumbnail : Option String := none
deriving DecidableEq

/-- JS `s || dflt` on an optional string: absent and empty both fall back. -/
def jsOr (s : Option String) (dflt : String) : String :=
  match s with
  | some t => if t = "" then dflt else t
  | none => dflt

/-- Whether `needle` occurs at the start of `hay`. -/
def startsWithChars : List Char → List Char → Bool
  | [], _ => true
  | _ :: _, [] => false
  | n :: ns, h :: hs => n == h && startsWithChars ns hs

/-- Whether `needle` occurs anywhere in `hay`. -/
def containsChars (hay needle : List Char) : Bool :=
  startsWithChars needle hay ||
    match hay with
    | [] => false
    | _ :: hs => containsChars hs needle

/-- JS `hay.includes(needle)` on strings, as used by the content-type test
`contentType?.includes('text/html')`. -/
def strContains (hay needle : String) : Bool :=
  containsChars hay.data needle.data

/-- `scanFeedsResolver`: the Feed Discovery Normalizer.  The external black
boxes are passed in: `parseOpmlFn` for `parseOpml`, `fetchResult` for the
outcome of `axios.get(url, RSS_PARSER_CONFIG)` (`Except.error` when the
fetch threw), `querySelectorLinks` for HTML parsing plus the
`link[type="application/rss+xml"]` selector, and `parseFeedFn` for
`parseFeed`. -/
def scanFeedsResolver (parseOpmlFn : String → Option (List OpmlOutline))
    (fetchResult : Except Unit FetchResponse)
    (querySelectorLinks : String → List HtmlLink)
    (parseFeedFn : String → Option Feed) (input : ScanFeedsInput) :
    Except (List ScanFeedsErrorCode) (List ScannedFeed) :=
  if input.opml.getD "" ≠ "" then
    match parseOpmlFn (input.opml.getD "") with
    | none => .error [.BadRequest]
    | some feeds =>
      .ok (feeds.map fun feed =>
        { url := feed.url, title := feed.title
          type := some (jsOr feed.type "rss") })
  else if input.url.getD "" = "" then
    .error [.BadRequest]
  else
    match fetchResult with
    | .error _ => .error [.BadRequest]
    | .ok response =>
      let isHtml :=
        match response.contentType with
        | some ct => strContains ct "text/html"
        | none => false
      if isHtml then
        .ok (((querySelectorLinks response.data).map fun link =>
          ({ url := link.href.getD "", title := link.title.getD ""
             type := some "rss" } : ScannedFeed)).filter
            fun feed => decide (feed.url ≠ ""))
      else
        match parseFeedFn (input.url.getD "") with
        | none => .error [.BadRequest]
        | some feed =>
          .ok [{ url := feed.url, title := feed.title
                 description := feed.description
                 thumbnail := feed.thumbnail }]

/-- Fields of `MutationUpdateSubscriptionArgs.input`. -/
structure UpdateSubscriptionInput where
  id : Nat
  name : Option String := none
  description : Option String := none
  lastFetchedAt : Option Nat := none
  lastFetchedChecksum : Option String := none
  status : Option SubscriptionStatus := none
  scheduledAt : Option Nat := none
  autoAddToLibrary : Option Bool := none
  isPrivate : Option Bool := none
deriving DecidableEq

/-- Error codes used by `updateSubscriptionResolver`: every failure,
including a missing row, collapses to `BadRequest`. -/
inductive UpdateSubscriptionErrorCode
  | BadRequest
deriving DecidableEq

/-- The partial entity handed to `save` by `updateSubscriptionResolver`: a
field that is `none` here was `undefined` in the payload and is left
untouched by the save. -/
structure SubscriptionSavePayload where
  name : Option String
  description : Option String
  lastFetchedAt : Option Nat
  lastFetchedChecksum : Option String
  status : Option SubscriptionStatus
  scheduledAt : Option Nat
  autoAddToLibrary : Option Bool
  isPrivate : Option Bool
deriving DecidableEq

/-- The payload built by `updateSubscriptionResolver` from its input:
`input.name || undefined`, `input.description || undefined`,
`input.lastFetchedAt ? new Date(input.lastFetchedAt) : undefined`,
`input.lastFetchedChecksum || undefined`, `input.status || undefined`,
`input.scheduledAt ? new Date(input.scheduledAt) : undefined`,
`input.autoAddToLibrary ?? undefined`, `input.isPrivate ?? undefined`.
Date parsing of a present timestamp is the identity in this model, and a
GraphQL enum value is never the empty string, so `status || undefined`
only collapses an absent status. -/
def toSavePayload (input : UpdateSubscriptionInput) :
    SubscriptionSavePayload :=
  { name := jsOrUndefined input.name
    description := jsOrUndefined input.description
    lastFetchedAt := input.lastFetchedAt
    lastFetchedChecksum := jsOrUndefined input.lastFetchedChecksum
    status := input.status
    scheduledAt := input.scheduledAt
    autoAddToLibrary := input.autoAddToLibrary
    isPrivate := input.isPrivate }

/-- TypeORM `save` of a partial entity onto an existing row: only the fields
that are defined in the payload overwrite the row's columns. -/
def applySave (s : Subscription) (p : SubscriptionSavePayload) :
    Subscription :=
  { s with
    name := p.name.getD s.name
    description :=
      match p.description with
      | some d => some d
      | none => s.description
    lastFetchedAt :=
      match p.lastFetchedAt with
      | some t => some t
      | none => s.lastFetchedAt
    lastFetchedChecksum :=
      match p.lastFetchedChecksum with
      | some c => some c
      | none => s.lastFetchedChecksum
    status := p.status.getD s.status
    scheduledAt :=
      match p.scheduledAt with
      | some t => some t
      | none => s.scheduledAt
    autoAddToLibrary :=
      match p.autoAddToLibrary with
      | some b => some b
      | none => s.autoAddToLibrary
    isPrivate :=
      match p.isPrivate with
      | some b => some b
      | none => s.isPrivate }

/-- `updateSubscriptionResolver`: inside one transaction, save the partial
payload onto the row with `input.id`, then re-read the canonical row scoped
to the requesting user with `findOneByOrFail`.  A failed re-read throws,
which aborts (rolls back) the transaction and is caught as `BadRequest`. -/
def updateSubscriptionResolver (db : List Subscription) (uid : Nat)
    (input : UpdateSubscriptionInput) :
    List Subscription ×
      Except (List UpdateSubscriptionErrorCode) Subscription :=
  let p := toSavePayload input
  let db' := db.map fun s => if s.id = input.id then applySave s p else s
  match db'.find? fun s => decide (s.id = input.id ∧ s.userId = uid) with
  | some r => (db', .ok r)
  | none => (db, .error [.BadRequest])

/-! ## Sample data used by the witness theorems -/

/-- A concrete active RSS subscription. -/
def sampleActive : Subscription :=
  { id := 1
    userId := 7
    type := .RSS
    url := "https://a.example/feed"
    name := "A"
    description := none
    icon := none
    status := .ACTIVE
    createdAt := 5
    lastFetchedAt := some 9
    lastFetchedChecksum := some "c9"
    scheduledAt := none
    autoAddToLibrary := some true
    isPrivate := none }

/-- A concrete unsubscribed RSS subscription of the same user. -/
def sampleUnsub : Subscription :=
  { sampleActive with
    id := 2
    url := "https://b.example/feed"
    status := .UNSUBSCRIBED
    lastFetchedAt := some 11
    lastFetchedChecksum := some "c11" }

/-- A concrete parsed feed document whose canonical url differs from the
sample input urls. -/
def sampleFeed : Feed :=
  { title := "Sample Feed"
    url := "https://canonical.example/rss"
    description := some "d"
    thumbnail := some "t" }

/-- A feed parser black box that resolves every url to `sampleFeed`. -/
def sampleParse : String → Option Feed := fun _ => some sampleFeed

/-! ## Theorems -/

/-- Claim C2: if subscribe finds an existing subscription for
(userId, url, RSS) whose status is ACTIVE, it returns AlreadySubscribed and
creates no new row; if it finds one whose status is UNSUBSCRIBED, it sets
that row's status to ACTIVE, leaves its prior lastFetchedAt and
lastFetchedChecksum values unchanged, and returns the updated row. -/
theorem subscribe_existing_spec (parseFeedFn : String → Option Feed)
    (newId now : Nat) (db : List Subscription) (uid : Nat)
    (input : SubscribeInput) (existing : Subscription)
    (hfind : findOneBySub db uid input.url = some existing) :
    (existing.status = .ACTIVE →
      subscribeResolver parseFeedFn newId now db uid input =
        { db := db, result := .error [.AlreadySubscribed], tasks := [] }) ∧
    (existing.status = .UNSUBSCRIBED →
      ∃ r,
        (subscribeResolver parseFeedFn newId now db uid input).result =
          .success [r] ∧
        r.status = .ACTIVE ∧
        r.lastFetchedAt = existing.lastFetchedAt ∧
        r.lastFetchedChecksum = existing.lastFetchedChecksum ∧
        r.id = existing.id ∧ r.url = existing.url ∧
        (subscribeResolver parseFeedFn newId now db uid input).db.length =
          db.length) := by
  constructor
  · intro hAct
    unfold subscribeResolver
    rw [hfind]
    simp [hAct]
  · intro hUn
    have hne : existing.status ≠ .ACTIVE := by
      rw [hUn]; intro h; cases h
    refine ⟨{ existing with status := .ACTIVE }, ?_, rfl, rfl, rfl, rfl, rfl, ?_⟩
    · unfold subscribeResolver
      rw [hfind]
      simp [hne]
    · unfold subscribeResolver
      rw [hfind]
      simp [hne, saveRow]

/-- Claim C2 witness: the theorem applied to a concrete database holding an
unsubscribed subscription for the requested url. -/
theorem subscribe_existing_spec_witness :
    ∃ r,
      (subscribeResolver sampleParse 3 17 [sampleUnsub] 7
        { url := "https://b.example/feed", autoAddToLibrary := none
          isPrivate := none }).result = .success [r] ∧
      r.status = .ACTIVE ∧
      r.lastFetchedAt = sampleUnsub.lastFetchedAt ∧
      r.lastFetchedChecksum = sampleUnsub.lastFetchedChecksum ∧
      r.id = sampleUnsub.id ∧ r.url = sampleUnsub.url ∧
      (subscribeResolver sampleParse 3 17 [sampleUnsub] 7
        { url := "https://b.example/feed", autoAddToLibrary := none
          isPrivate := none }).db.length = [sampleUnsub].length :=
  (subscribe_existing_spec sampleParse 3 17 [sampleUnsub] 7
    { url := "https://b.example/feed", autoAddToLibrary := none
      isPrivate := none } sampleUnsub (by decide)).2 (by decide)

/-- Inversion for a conditional insert that returned a row: the insert took
the success branch, so the returned row is the candidate and the new state
appends it. -/
theorem insertWithQuota_ok_cons (db : List Subscription) (row : Subscription)
    (quota : Nat) (db' : List Subscription) (r : Subscription)
    (rest : List Subscription)
    (h : insertWithQuota db row quota = .ok (db', r :: rest)) :
    db' = db ++ [row] ∧ r = row ∧ rest = [] := by
  unfold insertWithQuota at h
  split at h
  · split at h
    · cases h
    · injection h with h1
      injection h1 with h2 h3
      injection h3 with h4 h5
      exact ⟨h2.symm, h4.symm, h5.symm⟩
  · injection h with h1
    injection h1 with h2 h3
    cases h3

/-- Claim C4: for a subscribe call whose url has no existing
(userId, url, RSS) subscription, an unparseable feed fails NotFound;
otherwise the quota-guarded insert is attempted with quota 150, an empty
insert result fails ExceededMaxSubscriptions rather than raising an error,
and a non-empty result returns the single newly inserted row. -/
theorem subscribe_new_url_spec (parseFeedFn : String → Option Feed)
    (newId now : Nat) (db : List Subscription) (uid : Nat)
    (input : SubscribeInput)
    (hfind : findOneBySub db uid input.url = none) :
    (parseFeedFn input.url = none →
      subscribeResolver parseFeedFn newId now db uid input =
        { db := db, result := .error [.NotFound], tasks := [] }) ∧
    (∀ feed, parseFeedFn input.url = some feed →
      (∀ db₀,
        insertWithQuota db (mkSubscriptionRow newId now uid input feed) 150 =
          .ok (db₀, []) →
        (subscribeResolver parseFeedFn newId now db uid input).result =
          .error [.ExceededMaxSubscriptions]) ∧
      (∀ db' r rest,
        insertWithQuota db (mkSubscriptionRow newId now uid input feed) 150 =
          .ok (db', r :: rest) →
        (subscribeResolver parseFeedFn newId now db uid input).result =
          .success [r] ∧
        (subscribeResolver parseFeedFn newId now db uid input).db = db')) := by
  constructor
  · intro hpf
    unfold subscribeResolver
    rw [hfind, hpf]
  · intro feed hpf
    constructor
    · intro db₀ hins
      simp only [subscribeResolver, hfind, hpf, insertOutcome,
        MAX_RSS_SUBSCRIPTIONS, hins]
    · intro db' r rest hins
      obtain ⟨hdb', hr, hrest⟩ :=
        insertWithQuota_ok_cons db (mkSubscriptionRow newId now uid input feed)
          150 db' r rest hins
      subst hdb' hr hrest
      constructor
      · simp only [subscribeResolver, hfind, hpf, insertOutcome,
          MAX_RSS_SUBSCRIPTIONS, hins]
      · simp only [subscribeResolver, hfind, hpf, insertOutcome,
          MAX_RSS_SUBSCRIPTIONS, hins]

/-- Claim C4 witness: the theorem applied to a user already holding one
active subscription, subscribing to a fresh url that parses as a feed. -/
theorem subscribe_new_url_spec_witness :
    (subscribeResolver sampleParse 3 17 [sampleActive] 7
      { url := "https://new.example/feed", autoAddToLibrary := none
        isPrivate := none }).result =
      .success [mkSubscriptionRow 3 17 7
        { url := "https://new.example/feed", autoAddToLibrary := none
          isPrivate := none } sampleFeed] :=
  (((subscribe_new_url_spec sampleParse 3 17 [sampleActive] 7
    { url := "https://new.example/feed", autoAddToLibrary := none
      isPrivate := none } (by decide)).2 sampleFeed (by decide)).2
    ([sampleActive] ++ [mkSubscriptionRow 3 17 7
      { url := "https://new.example/feed", autoAddToLibrary := none
        isPrivate := none } sampleFeed])
    (mkSubscriptionRow 3 17 7
      { url := "https://new.example/feed", autoAddToLibrary := none
        isPrivate := none } sampleFeed) [] rfl).1

/-- Claim C9: a subscribe call that creates a new subscription takes the
persisted row's name, url, description and icon from the parsed feed
document, not from the caller's input — description and icon through the
`|| null` normalization of index.ts:244,247, which stores an empty string
as NULL; when the parsed feed's canonical url differs from the input url
the stored url differs from the url subscribed with, and a later subscribe
lookup keyed by that input url does not match the stored row. -/
theorem subscribe_fields_from_feed (parseFeedFn : String → Option Feed)
    (newId now : Nat) (db : List Subscription) (uid : Nat)
    (input : SubscribeInput) (feed : Feed)
    (hpf : parseFeedFn input.url = some feed)
    (hfind : findOneBySub db uid input.url = none)
    (hquota : activeRssCount db uid < 150)
    (hnodup : ∀ s ∈ db,
      ¬(s.userId = uid ∧ s.url = feed.url ∧ s.type = SubscriptionType.RSS)) :
    ∃ r,
      (subscribeResolver parseFeedFn newId now db uid input).result =
        .success [r] ∧
      r.name = feed.title ∧ r.url = feed.url ∧
      r.description = jsOrUndefined feed.description ∧
      r.icon = jsOrUndefined feed.thumbnail ∧
      (subscribeResolver parseFeedFn newId now db uid input).db = db ++ [r] ∧
      (feed.url ≠ input.url →
        r.url ≠ input.url ∧
        findOneBySub ((subscribeResolver parseFeedFn newId now db uid input).db)
          uid input.url = none) := by
  have hrow :
      insertWithQuota db (mkSubscriptionRow newId now uid input feed)
        MAX_RSS_SUBSCRIPTIONS =
        .ok (db ++ [mkSubscriptionRow newId now uid input feed],
          [mkSubscriptionRow newId now uid input feed]) := by
    unfold insertWithQuota
    have hc : activeRssCount db
        (mkSubscriptionRow newId now uid input feed).userId <
        MAX_RSS_SUBSCRIPTIONS := hquota
    rw [if_pos hc]
    have hfindnone :
        (db.find? fun s =>
          decide (s.userId = (mkSubscriptionRow newId now uid input feed).userId ∧
            s.url = (mkSubscriptionRow newId now uid input feed).url ∧
            s.type = (mkSubscriptionRow newId now uid input feed).type)) = none := by
      rw [List.find?_eq_none]
      intro s hs
      simpa [mkSubscriptionRow] using hnodup s hs
    rw [hfindnone]
    rfl
  have hdb : (subscribeResolver parseFeedFn newId now db uid input).db =
      db ++ [mkSubscriptionRow newId now uid input feed] := by
    simp only [subscribeResolver, hfind, hpf, insertOutcome, hrow]
  refine ⟨mkSubscriptionRow newId now uid input feed, ?_, rfl, rfl, rfl, rfl,
    hdb, ?_⟩
  · simp only [subscribeResolver, hfind, hpf, insertOutcome, hrow]
  · intro hurl
    refine ⟨hurl, ?_⟩
    rw [hdb, findOneBySub, List.find?_eq_none]
    intro s hs
    rcases List.mem_append.mp hs with hs | hs
    · have := (List.find?_eq_none.mp hfind) s hs
      simpa using this
    · rcases List.mem_singleton.mp hs with rfl
      simp [mkSubscriptionRow]
      intro h
      exact absurd h hurl

/-- Claim C9 witness: subscribing to an input url that the feed parser
resolves to a different canonical url. -/
theorem subscribe_fields_from_feed_witness :
    ∃ r,
      (subscribeResolver sampleParse 3 17 [sampleActive] 7
        { url := "https://new.example/feed", autoAddToLibrary := none
          isPrivate := none }).result = .success [r] ∧
      r.name = sampleFeed.title ∧ r.url = sampleFeed.url ∧
      r.description = jsOrUndefined sampleFeed.description ∧
      r.icon = jsOrUndefined sampleFeed.thumbnail ∧
      (subscribeResolver sampleParse 3 17 [sampleActive] 7
        { url := "https://new.example/feed", autoAddToLibrary := none
          isPrivate := none }).db = [sampleActive] ++ [r] ∧
      (sampleFeed.url ≠ "https://new.example/feed" →
        r.url ≠ "https://new.example/feed" ∧
        findOneBySub ((subscribeResolver sampleParse 3 17 [sampleActive] 7
          { url := "https://new.example/feed", autoAddToLibrary := none
            isPrivate := none }).db) 7 "https://new.example/feed" = none) :=
  subscribe_fields_from_feed sampleParse 3 17 [sampleActive] 7
    { url := "https://new.example/feed", autoAddToLibrary := none
      isPrivate := none } sampleFeed (by decide) (by decide) (by decide)
    (by decide)

/-- Claim C7 counterexample: the effective page size is not clamped to
[0, 100] — a negative requested size passes through unclamped, and a
requested size of 0 (inside the claimed interval) is replaced by 10. -/
theorem effectiveFirst_not_clamped :
    effectiveFirst (some (-5)) = -5 ∧
    ¬(0 ≤ effectiveFirst (some (-5))) ∧
    effectiveFirst (some 0) = 10 ∧
    effectiveFirst (some 0) ≠ 0 := by
  decide

/-- Claim C7 as amended: the effective page size is capped above at 100 and
defaults to 10 when the caller supplies no value or supplies 0; a supplied
nonzero value becomes min(first, 100), with no lower clamp. -/
theorem effectiveFirst_spec (n : Int) :
    effectiveFirst none = 10 ∧
    effectiveFirst (some 0) = 10 ∧
    (n ≠ 0 → effectiveFirst (some n) = min n 100) ∧
    effectiveFirst (some n) ≤ 100 := by
  refine ⟨by decide, by decide, ?_, ?_⟩
  · intro hn
    unfold effectiveFirst
    show min (if n = 0 then (10 : Int) else n) 100 = min n 100
    rw [if_neg hn]
  · unfold effectiveFirst
    show min (if n = 0 then (10 : Int) else n) 100 ≤ 100
    exact min_le_right _ _

/-- Claim C7 amended witness: a supplied nonzero page size of 7. -/
theorem effectiveFirst_spec_witness :
    (7 : Int) ≠ 0 ∧ effectiveFirst (some 7) = min 7 100 :=
  ⟨by decide, (effectiveFirst_spec 7).2.2.1 (by decide)⟩

/-- Claim C8 counterexample: for a url whose fetched response is not HTML
and whose body does not parse as a valid feed, the scan call fails with
BadRequest, not with NotFound as claimed. -/
theorem scanFeeds_unparseable_not_notfound :
    scanFeedsResolver (fun _ => none)
      (.ok { data := "junk", contentType := some "application/rss+xml" })
      (fun _ => []) (fun _ => none)
      { opml := none, url := some "https://example.com/feed" } =
      .error [ScanFeedsErrorCode.BadRequest] ∧
    ScanFeedsErrorCode.BadRequest ≠ ScanFeedsErrorCode.NotFound :=
  ⟨rfl, by decide⟩

/-- Claim C8 as amended: given a url whose fetched response is not HTML, the
body is treated as a feed document and parsed into exactly one candidate
carrying the feed's own title and url, and the call fails with BadRequest
(not NotFound) when the body does not parse as a valid feed. -/
theorem scanFeeds_non_html_spec
    (parseOpmlFn : String → Option (List OpmlOutline))
    (querySelectorLinks : String → List HtmlLink)
    (parseFeedFn : String → Option Feed) (url : String)
    (response : FetchResponse)
    (hurl : url ≠ "")
    (hct : (match response.contentType with
            | some ct => strContains ct "text/html"
            | none => false) = false) :
    (parseFeedFn url = none →
      scanFeedsResolver parseOpmlFn (.ok response) querySelectorLinks
        parseFeedFn { opml := none, url := some url } =
        .error [.BadRequest]) ∧
    (∀ feed, parseFeedFn url = some feed →
      scanFeedsResolver parseOpmlFn (.ok response) querySelectorLinks
        parseFeedFn { opml := none, url := some url } =
        .ok [{ url := feed.url, title := feed.title
               description := feed.description
               thumbnail := feed.thumbnail }]) := by
  constructor
  · intro hpf
    simp only [scanFeedsResolver, Option.getD, hct, hpf]
    simp [hurl]
  · intro feed hpf
    simp only [scanFeedsResolver, Option.getD, hct, hpf]
    simp [hurl]

/-- Claim C8 amended witness: a non-HTML response whose body parses as a
feed yields exactly that feed's candidate. -/
theorem scanFeeds_non_html_spec_witness :
    scanFeedsResolver (fun _ => none)
      (.ok { data := "f", contentType := some "application/rss+xml" })
      (fun _ => []) sampleParse
      { opml := none, url := some "https://example.com/feed" } =
      .ok [{ url := sampleFeed.url, title := sampleFeed.title
             description := sampleFeed.description
             thumbnail := sampleFeed.thumbnail }] :=
  (scanFeeds_non_html_spec (fun _ => none) (fun _ => []) sampleParse
    "https://example.com/feed"
    { data := "f", contentType := some "application/rss+xml" }
    (by decide) (by decide)).2 sampleFeed rfl

/-- Claim C10: in updateSubscription an empty string for name, description
or lastFetchedChecksum, or an absent (falsy) status, is treated exactly like
omitting the field — the stored value is unchanged — whereas supplying false
for autoAddToLibrary or isPrivate does set the stored field to false, and
every field not named in the input is left unchanged. -/
theorem updateSubscription_partial_spec (db : List Subscription) (uid : Nat)
    (input : UpdateSubscriptionInput) :
    (updateSubscriptionResolver db uid
        { input with name := some "", description := some ""
                     lastFetchedChecksum := some "" } =
      updateSubscriptionResolver db uid
        { input with name := none, description := none
                     lastFetchedChecksum := none }) ∧
    (∀ r, (updateSubscriptionResolver db uid input).2 = .ok r →
      ∃ s, s ∈ db ∧ s.id = input.id ∧ r = applySave s (toSavePayload input) ∧
        ((input.name = some "" ∨ input.name = none) → r.name = s.name) ∧
        ((input.description = some "" ∨ input.description = none) →
          r.description = s.description) ∧
        ((input.lastFetchedChecksum = some "" ∨
            input.lastFetchedChecksum = none) →
          r.lastFetchedChecksum = s.lastFetchedChecksum) ∧
        (input.status = none → r.status = s.status) ∧
        (input.autoAddToLibrary = some false →
          r.autoAddToLibrary = some false) ∧
        (input.isPrivate = some false → r.isPrivate = some false) ∧
        r.id = s.id ∧ r.userId = s.userId ∧ r.type = s.type ∧
        r.url = s.url ∧ r.icon = s.icon ∧ r.createdAt = s.createdAt) := by
  constructor
  · unfold updateSubscriptionResolver toSavePayload
    simp [jsOrUndefined]
  · intro r hr
    have hfind :
        (db.map fun s =>
          if s.id = input.id then applySave s (toSavePayload input)
          else s).find?
          (fun s => decide (s.id = input.id ∧ s.userId = uid)) = some r := by
      simp only [updateSubscriptionResolver] at hr
      split at hr
      next r' hf =>
        injection hr with h
        subst h
        exact hf
      next hf =>
        cases hr
    have hmem := List.mem_of_find?_eq_some hfind
    have hpred := List.find?_some hfind
    simp only [decide_eq_true_eq] at hpred
    rcases List.mem_map.mp hmem with ⟨s, hs, hmap⟩
    by_cases hid : s.id = input.id
    · rw [if_pos hid] at hmap
      refine ⟨s, hs, hid, hmap.symm, ?_, ?_, ?_, ?_, ?_, ?_, ?_, ?_, ?_, ?_,
        ?_, ?_⟩ <;> rw [← hmap] <;>
        simp only [applySave, toSavePayload, jsOrUndefined]
      · rintro (h | h) <;> rw [h] <;> simp
      · rintro (h | h) <;> rw [h] <;> simp
      · rintro (h | h) <;> rw [h] <;> simp
      · intro h; rw [h]; simp
      · intro h; rw [h]
      · intro h; rw [h]
    · rw [if_neg hid] at hmap
      subst hmap
      exact absurd hpred.1 hid

/-- Claim C10 witness: an update supplying empty strings, a false boolean
flag and no status, applied to a concrete stored row. -/
theorem updateSubscription_partial_spec_witness :
    ∀ r, (updateSubscriptionResolver [sampleActive] 7
        { id := 1, name := some "", description := some ""
          lastFetchedChecksum := some "", status := none
          autoAddToLibrary := some false, isPrivate := some false }).2 =
        .ok r →
      ∃ s, s ∈ [sampleActive] ∧ s.id = 1 ∧
        r = applySave s (toSavePayload
          { id := 1, name := some "", description := some ""
            lastFetchedChecksum := some "", status := none
            autoAddToLibrary := some false, isPrivate := some false }) ∧
        ((some "" = some "" ∨ (some "" : Option String) = none) →
          r.name = s.name) ∧
        ((some "" = some "" ∨ (some "" : Option String) = none) →
          r.description = s.description) ∧
        ((some "" = some "" ∨ (some "" : Option String) = none) →
          r.lastFetchedChecksum = s.lastFetchedChecksum) ∧
        ((none : Option SubscriptionStatus) = none → r.status = s.status) ∧
        (some false = some false → r.autoAddToLibrary = some false) ∧
        (some false = some false → r.isPrivate = some false) ∧
        r.id = s.id ∧ r.userId = s.userId ∧ r.type = s.type ∧
        r.url = s.url ∧ r.icon = s.icon ∧ r.createdAt = s.createdAt :=
  (updateSubscription_partial_spec [sampleActive] 7
    { id := 1, name := some "", description := some ""
      lastFetchedChecksum := some "", status := none
      autoAddToLibrary := some false, isPrivate := some false }).2

/-- Claim C3: hasNextPage is true exactly when the search returned more than
`first` entries for the `first + 1` request, in which case the extra last
entry is dropped from the edges, and endCursor is the decimal string of
start + entriesReturned − (hasNextPage ? 1 : 0); concretely, over a 25-entry
catalog with first = 10, the page at after="" has 10 edges, hasNextPage and
endCursor "10", the page at after="10" has endCursor "20", and the page at
after="20" has 5 edges and hasNextPage false. -/
theorem feeds_pagination_spec {α : Type}
    (searchFeeds : String → Int → Int → List α × Nat) (input : FeedsInput) :
    ((feedsResolver searchFeeds input).hasNextPage = true ↔
      (((searchFeeds (input.query.getD "") (effectiveFirst input.first + 1)
          (cursorToOffset (input.after.getD ""))).1.length : Int) >
        effectiveFirst input.first)) ∧
    ((feedsResolver searchFeeds input).edges.map FeedEdge.node =
      if ((searchFeeds (input.query.getD "") (effectiveFirst input.first + 1)
            (cursorToOffset (input.after.getD ""))).1.length : Int) >
          effectiveFirst input.first then
        (searchFeeds (input.query.getD "") (effectiveFirst input.first + 1)
          (cursorToOffset (input.after.getD ""))).1.dropLast
      else
        (searchFeeds (input.query.getD "") (effectiveFirst input.first + 1)
          (cursorToOffset (input.after.getD ""))).1) ∧
    ((feedsResolver searchFeeds input).endCursor =
      toString (cursorToOffset (input.after.getD "") +
        ((searchFeeds (input.query.getD "") (effectiveFirst input.first + 1)
          (cursorToOffset (input.after.getD ""))).1.length : Int) -
        if ((searchFeeds (input.query.getD "")
              (effectiveFirst input.first + 1)
              (cursorToOffset (input.after.getD ""))).1.length : Int) >
            effectiveFirst input.first then 1 else 0)) ∧
    ((feedsResolver (searchCatalog (List.range 25))
        { after := some "", first := some 10, query := none }).edges.length = 10 ∧
      (feedsResolver (searchCatalog (List.range 25))
        { after := some "", first := some 10, query := none }).hasNextPage = true ∧
      (feedsResolver (searchCatalog (List.range 25))
        { after := some "", first := some 10, query := none }).endCursor = "10") ∧
    ((feedsResolver (searchCatalog (List.range 25))
        { after := some "10", first := some 10, query := none }).edges.length = 10 ∧
      (feedsResolver (searchCatalog (List.range 25))
        { after := some "10", first := some 10, query := none }).endCursor = "20") ∧
    ((feedsResolver (searchCatalog (List.range 25))
        { after := some "20", first := some 10, query := none }).edges.length = 5 ∧
      (feedsResolver (searchCatalog (List.range 25))
        { after := some "20", first := some 10, query := none }).hasNextPage = false) := by
  refine ⟨?_, ?_, ?_, by decide, by decide, by decide⟩
  · simp only [feedsResolver, decide_eq_true_eq]
  · simp only [feedsResolver]
    split
    next h =>
      rw [if_pos (by exact_mod_cast of_decide_eq_true h)]
      simp [Function.comp_def]
    next h =>
      rw [if_neg (by simpa using of_decide_eq_false (Bool.of_not_eq_true h))]
      simp [Function.comp_def]
  · simp only [feedsResolver]
    by_cases h : (((searchFeeds (input.query.getD "")
        (effectiveFirst input.first + 1)
        (cursorToOffset (input.after.getD ""))).1.length : Int) >
        effectiveFirst input.first)
    · rw [if_pos h, if_pos (decide_eq_true h)]
    · rw [if_neg h, if_neg (by simpa using h)]

/-- Claim C5: listing with type NEWSLETTER returns exactly the user's active
newsletters, listing with type RSS returns every RSS row of the user
regardless of status, and listing with no filter returns exactly the union
of the two. -/
theorem subscriptions_filter_spec (db : List Subscription) (uid : Nat)
    (sort : Option SortParams) (s : Subscription) :
    (s ∈ subscriptionsResolver db uid sort (some .NEWSLETTER) ↔
      s ∈ db ∧ s.userId = uid ∧ s.type = .NEWSLETTER ∧ s.status = .ACTIVE) ∧
    (s ∈ subscriptionsResolver db uid sort (some .RSS) ↔
      s ∈ db ∧ s.userId = uid ∧ s.type = .RSS) ∧
    (s ∈ subscriptionsResolver db uid sort none ↔
      s ∈ db ∧ s.userId = uid ∧
        ((s.type = .NEWSLETTER ∧ s.status = .ACTIVE) ∨ s.type = .RSS)) := by
  have hmem : ∀ t : Option SubscriptionType,
      s ∈ subscriptionsResolver db uid sort t ↔
        s ∈ db.filter (subscriptionFilter uid t) := by
    intro t
    simp only [subscriptionsResolver]
    exact List.Perm.mem_iff (List.perm_insertionSort _ _)
  refine ⟨?_, ?_, ?_⟩ <;>
    rw [hmem, List.mem_filter] <;>
    simp [subscriptionFilter, and_assoc]

/-- The NULLS LAST key comparison is total. -/
theorem nullsLastLE_total (dir : OrderDir) (x y : Option Nat) :
    nullsLastLE dir x y = true ∨ nullsLastLE dir y x = true := by
  cases x <;> cases y <;> cases dir <;> simp [nullsLastLE] <;> omega

/-- The NULLS LAST key comparison is transitive. -/
theorem nullsLastLE_trans (dir : OrderDir) (x y z : Option Nat)
    (hxy : nullsLastLE dir x y = true) (hyz : nullsLastLE dir y z = true) :
    nullsLastLE dir x z = true := by
  cases x <;> cases y <;> cases z <;> cases dir <;>
    simp [nullsLastLE] at * <;> omega

/-- The two-key ORDER BY comparison is total. -/
theorem subscriptionLE_total (col : SortColumn) (dir : OrderDir)
    (a b : Subscription) :
    subscriptionLE col dir a b = true ∨ subscriptionLE col dir b a = true := by
  unfold subscriptionLE
  by_cases h : statusKey a.status = statusKey b.status
  · rw [if_pos h, if_pos h.symm]
    exact nullsLastLE_total dir _ _
  · rw [if_neg h, if_neg fun hh => h hh.symm]
    simp only [decide_eq_true_eq]
    omega

/-- The two-key ORDER BY comparison is transitive. -/
theorem subscriptionLE_trans (col : SortColumn) (dir : OrderDir)
    (a b c : Subscription)
    (hab : subscriptionLE col dir a b = true)
    (hbc : subscriptionLE col dir b c = true) :
    subscriptionLE col dir a c = true := by
  unfold subscriptionLE at *
  by_cases h1 : statusKey a.status = statusKey b.status <;>
    by_cases h2 : statusKey b.status = statusKey c.status
  · rw [if_pos h1] at hab
    rw [if_pos h2] at hbc
    rw [if_pos (h1.trans h2)]
    exact nullsLastLE_trans dir _ _ _ hab hbc
  · rw [if_neg h2] at hbc
    simp only [decide_eq_true_eq] at hbc
    rw [if_neg (by omega), decide_eq_true_eq]
    omega
  · rw [if_neg h1] at hab
    simp only [decide_eq_true_eq] at hab
    rw [if_neg (by omega), decide_eq_true_eq]
    omega
  · rw [if_neg h1] at hab
    rw [if_neg h2] at hbc
    simp only [decide_eq_true_eq] at hab hbc
    rw [if_neg (by omega), decide_eq_true_eq]
    omega

/-- What one true comparison says about the pair: the earlier row's status is
no later, equal-status rows put NULL keys last, and equal-status non-NULL
keys respect the requested direction. -/
theorem subscriptionLE_consequences (col : SortColumn) (dir : OrderDir)
    (a b : Subscription) (h : subscriptionLE col dir a b = true) :
    (b.status = .ACTIVE → a.status = .ACTIVE) ∧
    (a.status = b.status →
      sortColVal col a = none → sortColVal col b = none) ∧
    (a.status = b.status → ∀ u v, sortColVal col a = some u →
      sortColVal col b = some v →
      (dir = .ASC → u ≤ v) ∧ (dir = .DESC → v ≤ u)) := by
  unfold subscriptionLE at h
  by_cases hst : statusKey a.status = statusKey b.status
  · rw [if_pos hst] at h
    refine ⟨?_, ?_, ?_⟩
    · intro hb
      cases ha : a.status <;> cases hb' : b.status <;>
        simp_all [statusKey]
    · intro _ hna
      rw [hna] at h
      cases hcb : sortColVal col b with
      | none => rfl
      | some v =>
        rw [hcb] at h
        simp [nullsLastLE] at h
    · intro _ u v hu hv
      rw [hu, hv] at h
      cases dir with
      | ASC =>
        simp only [nullsLastLE, decide_eq_true_eq] at h
        exact ⟨fun _ => h, fun hd => absurd hd (by decide)⟩
      | DESC =>
        simp only [nullsLastLE, decide_eq_true_eq] at h
        exact ⟨fun hd => absurd hd (by decide), fun _ => h⟩
  · rw [if_neg hst] at h
    simp only [decide_eq_true_eq] at h
    refine ⟨?_, ?_, ?_⟩
    · intro hb
      cases ha : a.status <;> cases hb' : b.status <;>
        simp_all [statusKey]
    · intro heq
      exact absurd (by rw [heq]) hst
    · intro heq
      exact absurd (by rw [heq]) hst

/-- Claim C6: every listing is ordered primarily by status ascending — every
ACTIVE row precedes every UNSUBSCRIBED row — and secondarily by the
requested sort column (lastFetchedAt when sorting by UpdatedTime, createdAt
by default; ascending only when Ascending is requested, descending by
default), with NULL sort keys placed after all non-NULL keys in both
directions. -/
theorem subscriptions_order_spec (db : List Subscription) (uid : Nat)
    (sort : Option SortParams) (type? : Option SubscriptionType) :
    (subscriptionsResolver db uid sort type?).Pairwise fun a b =>
      (b.status = .ACTIVE → a.status = .ACTIVE) ∧
      (a.status = b.status →
        (if sort.bind SortParams.by' = some SortBy.UpdatedTime
         then a.lastFetchedAt else some a.createdAt) = none →
        (if sort.bind SortParams.by' = some SortBy.UpdatedTime
         then b.lastFetchedAt else some b.createdAt) = none) ∧
      (a.status = b.status → ∀ u v,
        (if sort.bind SortParams.by' = some SortBy.UpdatedTime
         then a.lastFetchedAt else some a.createdAt) = some u →
        (if sort.bind SortParams.by' = some SortBy.UpdatedTime
         then b.lastFetchedAt else some b.createdAt) = some v →
        (if sort.bind SortParams.order = some SortOrder.Ascending
         then u ≤ v else v ≤ u)) := by
  have hcolval : ∀ s : Subscription,
      (if sort.bind SortParams.by' = some SortBy.UpdatedTime
       then s.lastFetchedAt else some s.createdAt) =
      sortColVal
        (if sort.bind SortParams.by' = some SortBy.UpdatedTime
         then SortColumn.lastFetchedAt else SortColumn.createdAt) s := by
    intro s
    split <;> rfl
  simp only [subscriptionsResolver]
  haveI hTot : IsTotal Subscription fun a b =>
      subscriptionLE
        (if sort.bind SortParams.by' = some SortBy.UpdatedTime
         then SortColumn.lastFetchedAt else SortColumn.createdAt)
        (if sort.bind SortParams.order = some SortOrder.Ascending
         then OrderDir.ASC else OrderDir.DESC) a b = true :=
    ⟨fun a b => subscriptionLE_total _ _ a b⟩
  haveI hTrans : IsTrans Subscription fun a b =>
      subscriptionLE
        (if sort.bind SortParams.by' = some SortBy.UpdatedTime
         then SortColumn.lastFetchedAt else SortColumn.createdAt)
        (if sort.bind SortParams.order = some SortOrder.Ascending
         then OrderDir.ASC else OrderDir.DESC) a b = true :=
    ⟨fun a b c hab hbc => subscriptionLE_trans _ _ a b c hab hbc⟩
  refine List.Pairwise.imp ?_ (List.sorted_insertionSort _ _)
  intro a b hab
  obtain ⟨h1, h2, h3⟩ := subscriptionLE_consequences _ _ a b hab
  refine ⟨h1, ?_, ?_⟩
  · intro hst hna
    rw [hcolval b]
    exact h2 hst (by rw [← hcolval a]; exact hna)
  · intro hst u v hu hv
    have := h3 hst u v (by rw [← hcolval a]; exact hu)
      (by rw [← hcolval b]; exact hv)
    split
    · exact this.1 (by rw [if_pos (by assumption)])
    · exact this.2 (by rw [if_neg (by assumption)])

/-- Appending one row changes the active-RSS count by exactly its own
contribution. -/
theorem activeRssCount_append (db : List Subscription) (row : Subscription)
    (uid : Nat) :
    activeRssCount (db ++ [row]) uid =
      activeRssCount db uid +
        if row.userId = uid ∧ row.type = .RSS ∧ row.status = .ACTIVE then 1
        else 0 := by
  unfold activeRssCount
  rw [List.filter_append, List.length_append]
  congr 1
  by_cases h : row.userId = uid ∧ row.type = .RSS ∧ row.status = .ACTIVE
  · rw [if_pos h]
    simp [h]
  · rw [if_neg h]
    simp [h]

/-- Trichotomy of one serialized atomic insert: it succeeds and appends the
row when the user is below quota and the key is fresh, raises (caught as
BadRequest) when the key already exists, and returns empty (reported as
ExceededMaxSubscriptions) when the quota is met. -/
theorem insertOutcome_cases (db : List Subscription) (row : Subscription) :
    (activeRssCount db row.userId < 150 ∧
      (∀ s ∈ db,
        ¬(s.userId = row.userId ∧ s.url = row.url ∧ s.type = row.type)) ∧
      insertOutcome db row = (db ++ [row], .success [row])) ∨
    (activeRssCount db row.userId < 150 ∧
      (∃ s ∈ db, s.userId = row.userId ∧ s.url = row.url ∧ s.type = row.type) ∧
      insertOutcome db row = (db, .error [.BadRequest])) ∨
    (¬activeRssCount db row.userId < 150 ∧
      insertOutcome db row = (db, .error [.ExceededMaxSubscriptions])) := by
  by_cases hc : activeRssCount db row.userId < 150
  · cases hdd : db.find? fun s =>
        decide (s.userId = row.userId ∧ s.url = row.url ∧ s.type = row.type) with
    | some s =>
      have hq : insertWithQuota db row MAX_RSS_SUBSCRIPTIONS = .error () := by
        unfold insertWithQuota MAX_RSS_SUBSCRIPTIONS
        rw [if_pos hc, hdd]
        rfl
      right; left
      have hps := List.find?_some hdd
      simp only [decide_eq_true_eq] at hps
      exact ⟨hc, ⟨s, List.mem_of_find?_eq_some hdd, hps⟩,
        by unfold insertOutcome; rw [hq]⟩
    | none =>
      have hq : insertWithQuota db row MAX_RSS_SUBSCRIPTIONS =
          .ok (db ++ [row], [row]) := by
        unfold insertWithQuota MAX_RSS_SUBSCRIPTIONS
        rw [if_pos hc, hdd]
        rfl
      left
      refine ⟨hc, ?_, by unfold insertOutcome; rw [hq]⟩
      intro s hs
      have := List.find?_eq_none.mp hdd s hs
      simpa using this
  · right; right
    have hq : insertWithQuota db row MAX_RSS_SUBSCRIPTIONS = .ok (db, []) := by
      unfold insertWithQuota MAX_RSS_SUBSCRIPTIONS
      rw [if_neg hc]
    exact ⟨hc, by unfold insertOutcome; rw [hq]⟩

/-- Unfolding the serialized run by one step. -/
theorem runInserts_cons (db : List Subscription) (row : Subscription)
    (rest : List Subscription) :
    runInserts db (row :: rest) =
      ((runInserts (insertOutcome db row).1 rest).1,
        (insertOutcome db row).2 :: (runInserts (insertOutcome db row).1 rest).2) :=
  rfl

/-- Success count of a cons. -/
theorem numSuccesses_cons (r : SubscribeResult) (rs : List SubscribeResult) :
    numSuccesses (r :: rs) =
      (if isSubscribeSuccess r then 1 else 0) + numSuccesses rs := by
  unfold numSuccesses
  rw [List.filter_cons]
  split
  · simp [Nat.add_comm]
  · simp

/-- One atomic insert either leaves the table alone or appends its row. -/
theorem insertOutcome_fst (db : List Subscription) (row : Subscription) :
    (insertOutcome db row).1 = db ∨ (insertOutcome db row).1 = db ++ [row] := by
  rcases insertOutcome_cases db row with ⟨_, _, h⟩ | ⟨_, _, h⟩ | ⟨_, h⟩ <;>
      rw [h]
  · right; rfl
  · left; rfl
  · left; rfl

/-- A successful atomic insert appended its row. -/
theorem insertOutcome_success_fst (db : List Subscription)
    (row : Subscription)
    (h : isSubscribeSuccess (insertOutcome db row).2 = true) :
    (insertOutcome db row).1 = db ++ [row] := by
  rcases insertOutcome_cases db row with ⟨_, _, he⟩ | ⟨_, _, he⟩ | ⟨_, he⟩
  · rw [he]
  · rw [he] at h
    simp [isSubscribeSuccess] at h
  · rw [he] at h
    simp [isSubscribeSuccess] at h

/-- Rows are never removed along a serialized run. -/
theorem runInserts_mem_mono (rows : List Subscription) :
    ∀ (db : List Subscription) (s : Subscription), s ∈ db →
      s ∈ (runInserts db rows).1 := by
  induction rows with
  | nil =>
    intro db s hs
    exact hs
  | cons row rest ih =>
    intro db s hs
    show s ∈ (runInserts (insertOutcome db row).1 rest).1
    apply ih
    rcases insertOutcome_fst db row with h | h <;> rw [h]
    · exact hs
    · exact List.mem_append_left _ hs

/-- Once a row with a given (userId, url, type) key is in the table, a later
serialized insert of that key never reports success. -/
theorem runInserts_dup_not_success (rows : List Subscription) :
    ∀ (db : List Subscription) (j : Nat) (rj : Subscription)
      (resj : SubscribeResult),
      rows.get? j = some rj →
      (runInserts db rows).2.get? j = some resj →
      (∃ s ∈ db, s.userId = rj.userId ∧ s.url = rj.url ∧ s.type = rj.type) →
      isSubscribeSuccess resj = false := by
  induction rows with
  | nil =>
    intro db j rj resj hj _ _
    simp at hj
  | cons row rest ih =>
    intro db j rj resj hj hresj hdup
    cases j with
    | zero =>
      have hrj : row = rj := by simpa using hj
      have hres : resj = (insertOutcome db row).2 := by
        have h0 : (runInserts db (row :: rest)).2.get? 0 =
            some (insertOutcome db row).2 := rfl
        rw [h0] at hresj
        exact (Option.some.inj hresj).symm
      subst hrj
      rcases insertOutcome_cases db row with ⟨_, hnd, _⟩ | ⟨_, _, heq⟩ |
          ⟨_, heq⟩
      · obtain ⟨s, hs, hkey⟩ := hdup
        exact absurd hkey (hnd s hs)
      · rw [hres, heq]
        rfl
      · rw [hres, heq]
        rfl
    | succ j' =>
      have hj' : rest.get? j' = some rj := by simpa using hj
      have hresj' :
          (runInserts (insertOutcome db row).1 rest).2.get? j' = some resj := by
        simp only [runInserts_cons, List.get?_cons_succ] at hresj
        exact hresj
      apply ih (insertOutcome db row).1 j' rj resj hj' hresj'
      obtain ⟨s, hs, hkey⟩ := hdup
      refine ⟨s, ?_, hkey⟩
      rcases insertOutcome_fst db row with h | h <;> rw [h]
      · exact hs
      · exact List.mem_append_left _ hs

/-- Quota bookkeeping of a serialized run of atomic inserts of fresh,
pairwise-distinct active RSS rows of one user: the final count is the
initial count plus the successes, the successes never exceed the remaining
headroom below 150, and every failure is ExceededMaxSubscriptions. -/
theorem runInserts_quota (rows : List Subscription) :
    ∀ (db : List Subscription) (uid : Nat),
      (∀ r ∈ rows, r.userId = uid ∧ r.type = .RSS ∧ r.status = .ACTIVE) →
      (∀ r ∈ rows, ∀ s ∈ db,
        ¬(s.userId = r.userId ∧ s.url = r.url ∧ s.type = r.type)) →
      rows.Pairwise (fun r₁ r₂ => r₁.url ≠ r₂.url) →
      activeRssCount (runInserts db rows).1 uid =
        activeRssCount db uid + numSuccesses (runInserts db rows).2 ∧
      numSuccesses (runInserts db rows).2 ≤ 150 - activeRssCount db uid ∧
      (∀ res ∈ (runInserts db rows).2, isSubscribeSuccess res = false →
        res = .error [.ExceededMaxSubscriptions]) := by
  induction rows with
  | nil =>
    intro db uid _ _ _
    refine ⟨by simp [runInserts, numSuccesses], by simp [runInserts, numSuccesses], ?_⟩
    intro res hres
    simp [runInserts] at hres
  | cons row rest ih =>
    intro db uid hmem hnew hpw
    have hrowP : row.userId = uid ∧ row.type = .RSS ∧ row.status = .ACTIVE :=
      hmem row (by simp)
    have hmem' : ∀ r ∈ rest,
        r.userId = uid ∧ r.type = .RSS ∧ r.status = .ACTIVE :=
      fun r hr => hmem r (List.mem_cons_of_mem _ hr)
    have hpw' : rest.Pairwise (fun r₁ r₂ => r₁.url ≠ r₂.url) :=
      (List.pairwise_cons.mp hpw).2
    have hpwhead : ∀ r ∈ rest, row.url ≠ r.url :=
      (List.pairwise_cons.mp hpw).1
    rcases insertOutcome_cases db row with ⟨hc, hnd, heq⟩ | ⟨hc, hd, heq⟩ |
        ⟨hc, heq⟩
    · -- fresh key, below quota: the insert succeeds
      have hnew' : ∀ r ∈ rest, ∀ s ∈ db ++ [row],
          ¬(s.userId = r.userId ∧ s.url = r.url ∧ s.type = r.type) := by
        intro r hr s hs
        rcases List.mem_append.mp hs with hs | hs
        · exact hnew r (List.mem_cons_of_mem _ hr) s hs
        · rcases List.mem_singleton.mp hs with rfl
          intro hkey
          exact hpwhead r hr hkey.2.1
      have IH := ih (db ++ [row]) uid hmem' hnew' hpw'
      have hcount1 : activeRssCount (db ++ [row]) uid =
          activeRssCount db uid + 1 := by
        rw [activeRssCount_append, if_pos hrowP]
      have hcuid : activeRssCount db uid < 150 := by
        rw [← hrowP.1]
        exact hc
      simp only [runInserts_cons, heq, numSuccesses_cons]
      obtain ⟨ih1, ih2, ih3⟩ := IH
      refine ⟨?_, ?_, ?_⟩
      · rw [ih1, hcount1]
        simp [isSubscribeSuccess]
        omega
      · rw [hcount1] at ih2
        simp [isSubscribeSuccess]
        omega
      · intro res hres hfail
        rcases List.mem_cons.mp hres with rfl | hres
        · simp [isSubscribeSuccess] at hfail
        · exact ih3 res hres hfail
    · -- a duplicate key in the initial table contradicts freshness
      obtain ⟨s, hs, hkey⟩ := hd
      exact absurd hkey (hnew row (by simp) s hs)
    · -- quota met: the insert returns empty
      have IH := ih db uid hmem' (fun r hr => hnew r (List.mem_cons_of_mem _ hr))
        hpw'
      have hcuid : ¬activeRssCount db uid < 150 := by
        rw [← hrowP.1]
        exact hc
      simp only [runInserts_cons, heq, numSuccesses_cons]
      obtain ⟨ih1, ih2, ih3⟩ := IH
      refine ⟨?_, ?_, ?_⟩
      · rw [ih1]
        simp [isSubscribeSuccess]
      · simp [isSubscribeSuccess]
        omega
      · intro res hres hfail
        rcases List.mem_cons.mp hres with rfl | hres
        · rfl
        · exact ih3 res hres hfail

/-- Two serialized inserts with the same (userId, url, type) key cannot both
succeed: the earlier success leaves the row in the table, so the later
insert's unique-key check fails. -/
theorem runInserts_no_double_success (rows : List Subscription) :
    ∀ (db : List Subscription) (i j : Nat) (ri rj : Subscription)
      (resi resj : SubscribeResult),
      i < j →
      rows.get? i = some ri → rows.get? j = some rj →
      ri.userId = rj.userId → ri.url = rj.url → ri.type = rj.type →
      (runInserts db rows).2.get? i = some resi →
      (runInserts db rows).2.get? j = some resj →
      ¬(isSubscribeSuccess resi = true ∧ isSubscribeSuccess resj = true) := by
  induction rows with
  | nil =>
    intro db i j ri rj resi resj hij hi
    simp at hi
  | cons row rest ih =>
    intro db i j ri rj resi resj hij hi hj hu hurl ht hresi hresj
    rintro ⟨hsi, hsj⟩
    cases i with
    | zero =>
      have hri : row = ri := by simpa using hi
      subst hri
      have hres0 : resi = (insertOutcome db row).2 := by
        have h0 : (runInserts db (row :: rest)).2.get? 0 =
            some (insertOutcome db row).2 := rfl
        rw [h0] at hresi
        exact (Option.some.inj hresi).symm
      obtain ⟨j', rfl⟩ : ∃ j', j = j' + 1 := ⟨j - 1, by omega⟩
      have hj' : rest.get? j' = some rj := by simpa using hj
      have hresj' :
          (runInserts (insertOutcome db row).1 rest).2.get? j' = some resj := by
        simp only [runInserts_cons, List.get?_cons_succ] at hresj
        exact hresj
      have hins : (insertOutcome db row).1 = db ++ [row] :=
        insertOutcome_success_fst db row (by rw [← hres0]; exact hsi)
      have hdup : ∃ s ∈ (insertOutcome db row).1,
          s.userId = rj.userId ∧ s.url = rj.url ∧ s.type = rj.type := by
        refine ⟨row, ?_, hu, hurl, ht⟩
        rw [hins]
        exact List.mem_append_right _ (by simp)
      have hfail := runInserts_dup_not_success rest (insertOutcome db row).1
        j' rj resj hj' hresj' hdup
      rw [hfail] at hsj
      exact absurd hsj (by decide)
    | succ i' =>
      obtain ⟨j', rfl⟩ : ∃ j', j = j' + 1 := ⟨j - 1, by omega⟩
      have hresi' :
          (runInserts (insertOutcome db row).1 rest).2.get? i' = some resi := by
        simp only [runInserts_cons, List.get?_cons_succ] at hresi
        exact hresi
      have hresj' :
          (runInserts (insertOutcome db row).1 rest).2.get? j' = some resj := by
        simp only [runInserts_cons, List.get?_cons_succ] at hresj
        exact hresj
      exact ih (insertOutcome db row).1 i' j' ri rj resi resj (by omega)
        (by simpa using hi) (by simpa using hj) hu hurl ht hresi' hresj'
        ⟨hsi, hsj⟩

/-- Claim C1: for N concurrent subscribe calls by one user to distinct new
URLs — serialized at their single state-changing atomic insert — when the
user already holds 150 − k active RSS subscriptions, at most k of the calls
succeed and every failed call returns ExceededMaxSubscriptions; the number
of simultaneously ACTIVE RSS subscriptions of the user never exceeds 150 at
any point of the run; and no two concurrent subscribe calls can both succeed
in creating a row for the same (user, url) pair. -/
theorem concurrent_subscribe_quota :
    (∀ (db : List Subscription) (uid k : Nat) (rows : List Subscription),
      (∀ r ∈ rows, r.userId = uid ∧ r.type = .RSS ∧ r.status = .ACTIVE) →
      (∀ r ∈ rows, ∀ s ∈ db,
        ¬(s.userId = r.userId ∧ s.url = r.url ∧ s.type = r.type)) →
      rows.Pairwise (fun r₁ r₂ => r₁.url ≠ r₂.url) →
      activeRssCount db uid + k = 150 →
      numSuccesses (runInserts db rows).2 ≤ k ∧
      (∀ n, activeRssCount (runInserts db (rows.take n)).1 uid ≤ 150) ∧
      (∀ res ∈ (runInserts db rows).2, isSubscribeSuccess res = false →
        res = .error [.ExceededMaxSubscriptions])) ∧
    (∀ (db : List Subscription) (rows : List Subscription) (i j : Nat)
      (ri rj : Subscription) (resi resj : SubscribeResult),
      i < j →
      rows.get? i = some ri → rows.get? j = some rj →
      ri.userId = rj.userId → ri.url = rj.url → ri.type = rj.type →
      (runInserts db rows).2.get? i = some resi →
      (runInserts db rows).2.get? j = some resj →
      ¬(isSubscribeSuccess resi = true ∧ isSubscribeSuccess resj = true)) := by
  constructor
  · intro db uid k rows hmem hnew hpw hk
    obtain ⟨m1, m2, m3⟩ := runInserts_quota rows db uid hmem hnew hpw
    refine ⟨by omega, ?_, m3⟩
    intro n
    have hmem' : ∀ r ∈ rows.take n,
        r.userId = uid ∧ r.type = .RSS ∧ r.status = .ACTIVE :=
      fun r hr => hmem r (List.take_subset n rows hr)
    have hnew' : ∀ r ∈ rows.take n, ∀ s ∈ db,
        ¬(s.userId = r.userId ∧ s.url = r.url ∧ s.type = r.type) :=
      fun r hr => hnew r (List.take_subset n rows hr)
    obtain ⟨t1, t2, _⟩ := runInserts_quota (rows.take n) db uid hmem' hnew'
      (hpw.sublist (List.take_sublist n rows))
    omega
  · intro db rows i j ri rj resi resj hij hi hj hu hurl ht hresi hresj
    exact runInserts_no_double_success rows db i j ri rj resi resj hij hi hj
      hu hurl ht hresi hresj

/-- A fresh candidate row for the concurrency witness. -/
def wRow1 : Subscription :=
  { sampleActive with id := 10, url := "https://w1.example/feed" }

/-- A second fresh candidate row with a distinct url. -/
def wRow2 : Subscription :=
  { sampleActive with id := 11, url := "https://w2.example/feed" }

/-- A candidate row sharing wRow1's (userId, url, type) key. -/
def wRow3 : Subscription :=
  { wRow1 with id := 12 }

/-- Claim C1 witness: both parts applied to concrete runs — two fresh
distinct urls for a user with one existing active subscription, and two
inserts of the same (user, url) key from an empty table. -/
theorem concurrent_subscribe_quota_witness :
    (numSuccesses (runInserts [sampleActive] [wRow1, wRow2]).2 ≤ 149 ∧
      (∀ n,
        activeRssCount (runInserts [sampleActive] ([wRow1, wRow2].take n)).1 7 ≤
          150) ∧
      (∀ res ∈ (runInserts [sampleActive] [wRow1, wRow2]).2,
        isSubscribeSuccess res = false →
        res = .error [.ExceededMaxSubscriptions])) ∧
    ¬(isSubscribeSuccess (SubscribeResult.success [wRow1]) = true ∧
      isSubscribeSuccess (SubscribeResult.error [.BadRequest]) = true) :=
  ⟨concurrent_subscribe_quota.1 [sampleActive] 7 149 [wRow1, wRow2]
      (by decide) (by decide) (by decide) (by decide),
    concurrent_subscribe_quota.2 [] [wRow1, wRow3] 0 1 wRow1 wRow3
      (.success [wRow1]) (.error [.BadRequest]) (by decide) (by decide)
      (by decide) (by decide) (by decide) (by decide) (by decide) (by decide)⟩

end Omnimap
